import Mathlib

/-!
Verification of the AXIOM hiring-impact calculator.

The core calculation engine (the backend module described in the repository
README as `src/services.py` / `src/models.py`) is not present among the
available sources; only its frontend consumers are.  Following the spec,
the core is modelled here from the spec's words, and the frontend
(`frontend/src/pages/Results.tsx`) is embedded from its source.

Money and month quantities are modelled as exact rationals.
-/

namespace Axm

/-- Modelled from the spec: the `FinancialSnapshot` value type of the missing
core module (§3): point-in-time company finances with `currentCash`,
`monthlyRevenue`, `monthlyExpenses`, each money (≥ 0 in the documented
domain), plus a timestamp. -/
structure FinancialSnapshot where
  currentCash : ℚ
  monthlyRevenue : ℚ
  monthlyExpenses : ℚ
  snapshotDate : String
  deriving Repr, DecidableEq

/-- Modelled from the spec: the `HireScenario` value type of the missing core
module (§3): a candidate hire's fully-loaded monthly cost — `roleTitle`,
`monthlySalary`, `monthlyBenefits`, `monthlyOverhead` (each money, ≥ 0 in
the documented domain), plus a start date. -/
structure HireScenario where
  roleTitle : String
  monthlySalary : ℚ
  monthlyBenefits : ℚ
  monthlyOverhead : ℚ
  startDate : String
  deriving Repr, DecidableEq

/-- The three-tier risk classification (`risk_level` in the frontend
`HiringImpact` interface, `riskLevel` in spec §3). -/
inductive RiskLevel where
  | Safe
  | Risky
  | Dangerous
  deriving Repr, DecidableEq

/-- Modelled from the spec: the `HiringImpactResult` record of the missing
core module (§3); field names follow the spec, the frontend interface
`HiringImpact` (api client) carries the same fields in snake_case. -/
structure HiringImpactResult where
  currentRunwayMonths : ℚ
  newRunwayMonths : ℚ
  runwayDeltaMonths : ℚ
  currentMonthlyBurn : ℚ
  newMonthlyBurn : ℚ
  burnDelta : ℚ
  riskLevel : RiskLevel
  financialSnapshot : FinancialSnapshot
  hireScenario : HireScenario
  deriving Repr, DecidableEq

/-- Modelled from the spec: the infinite-runway sentinel (§4.2): runway for a
break-even or profitable company is represented by the sentinel value 999
months. -/
def INFINITE_RUNWAY_SENTINEL : ℚ := 999

/-- Modelled from the spec: burn-rate calculation (§4.1) of the missing core
module: monthly burn = `monthlyRevenue - monthlyExpenses`; negative means
the company spends more than it earns. -/
def calculateMonthlyBurn (s : FinancialSnapshot) : ℚ :=
  s.monthlyRevenue - s.monthlyExpenses

/-- Modelled from the spec: runway calculation (§4.2) of the missing core
module: if burn is strictly negative, `runwayMonths = currentCash / |burn|`;
if burn is zero or positive, runway is the infinite sentinel. -/
def calculateRunway (currentCash burn : ℚ) : ℚ :=
  if burn < 0 then currentCash / |burn| else INFINITE_RUNWAY_SENTINEL

/-- Modelled from the spec: the hire's total monthly cost (§4.3 step 3, §9):
`monthlySalary + monthlyBenefits + monthlyOverhead`, a derived accessor on
`HireScenario`. -/
def HireScenario.hireTotalCost (h : HireScenario) : ℚ :=
  h.monthlySalary + h.monthlyBenefits + h.monthlyOverhead

/-- Modelled from the spec: risk classification (§4.3 step 8) of the missing
core module, with the documented example cutoffs: `newRunwayMonths ≥ 12 →
Safe`, `6 ≤ newRunwayMonths < 12 → Risky`, `newRunwayMonths < 6 →
Dangerous`. -/
def classifyRisk (newRunwayMonths : ℚ) : RiskLevel :=
  if 12 ≤ newRunwayMonths then RiskLevel.Safe
  else if 6 ≤ newRunwayMonths then RiskLevel.Risky
  else RiskLevel.Dangerous

/-- Modelled from the spec: the hiring-impact orchestrator (§4.3, §6) of the
missing core module, `computeHiringImpact(snapshot, scenario) ->
HiringImpactResult`, following the spec's eight contract steps and carrying
through the original snapshot and scenario. -/
def computeHiringImpact (snapshot : FinancialSnapshot) (scenario : HireScenario) :
    HiringImpactResult :=
  let currentMonthlyBurn := calculateMonthlyBurn snapshot
  let currentRunwayMonths := calculateRunway snapshot.currentCash currentMonthlyBurn
  let hireTotalCost := scenario.hireTotalCost
  let newMonthlyBurn := currentMonthlyBurn - hireTotalCost
  let newRunwayMonths := calculateRunway snapshot.currentCash newMonthlyBurn
  { currentRunwayMonths := currentRunwayMonths
    newRunwayMonths := newRunwayMonths
    runwayDeltaMonths := newRunwayMonths - currentRunwayMonths
    currentMonthlyBurn := currentMonthlyBurn
    newMonthlyBurn := newMonthlyBurn
    burnDelta := newMonthlyBurn - currentMonthlyBurn
    riskLevel := classifyRisk newRunwayMonths
    financialSnapshot := snapshot
    hireScenario := scenario }

/-! ## Frontend embedding (frontend/src/pages/Results.tsx) -/

/-- Embeds JavaScript's `Number.prototype.toFixed(1)` for a rational input:
the sign is taken from the input, the magnitude is rounded to one decimal
place with ties resolved toward the larger candidate, and the result is
rendered as `intPart.digit`. -/
def jsToFixed1 (x : ℚ) : String :=
  let sign := if x < 0 then "-" else ""
  let n := (Int.floor (|x| * 10 + 1 / 2)).toNat
  sign ++ toString (n / 10) ++ "." ++ toString (n % 10)

/-- Inserts a comma after every third character of a least-significant-first
digit list, embedding the `en-US` thousands grouping of
`Intl.NumberFormat`. -/
def insertCommasRev : List Char → List Char
  | a :: b :: c :: d :: rest => a :: b :: c :: ',' :: insertCommasRev (d :: rest)
  | l => l

/-- Renders a natural number with `en-US` thousands separators. -/
def commaGroupNat (n : ℕ) : String :=
  String.mk (insertCommasRev (toString n).data.reverse).reverse

/-- Embeds `formatCurrency` (Results.tsx lines 62-69):
`Intl.NumberFormat` with `en-US`, currency USD, zero fraction digits — the
amount is rounded to a whole number (ties away from zero), grouped with
commas, prefixed with `$`, and a leading `-` is kept for negative
amounts. -/
def formatCurrency (amount : ℚ) : String :=
  let sign := if amount < 0 then "-" else ""
  let n := (Int.floor (|amount| + 1 / 2)).toNat
  sign ++ "$" ++ commaGroupNat n

/-- Embeds `formatMonths` (Results.tsx lines 71-76): inputs of 999 or more
render as `∞ (Profitable)`; smaller inputs render as `toFixed(1)` followed
by ` months`. -/
def formatMonths (months : ℚ) : String :=
  if 999 ≤ months then "∞ (Profitable)"
  else jsToFixed1 months ++ " months"

/-- Embeds the `Current monthly burn` cell of the Financial Impact section
(Results.tsx line 172): `formatCurrency(Math.abs(impact.current_monthly_burn))`. -/
def currentBurnDisplay (impact : HiringImpactResult) : String :=
  formatCurrency |impact.currentMonthlyBurn|

/-- Embeds the `New monthly burn` cell of the Financial Impact section
(Results.tsx line 178): `formatCurrency(Math.abs(impact.new_monthly_burn))`. -/
def newBurnDisplay (impact : HiringImpactResult) : String :=
  formatCurrency |impact.newMonthlyBurn|

/-- Embeds the `Additional monthly cost` cell of the Financial Impact section
(Results.tsx line 184): `+` followed by
`formatCurrency(Math.abs(impact.burn_delta))`. -/
def burnDeltaDisplay (impact : HiringImpactResult) : String :=
  "+" ++ formatCurrency |impact.burnDelta|

/-- The rendered currency string the Financial Impact section produces for a
burn value `b`: `formatCurrency` applied to `Math.abs(b)`. -/
def renderedBurnCurrency (b : ℚ) : String :=
  formatCurrency |b|

/-- Numeric rank of a risk tier, with the spec's order
Safe > Risky > Dangerous: larger rank means safer. -/
def riskScore : RiskLevel → ℕ
  | RiskLevel.Dangerous => 0
  | RiskLevel.Risky => 1
  | RiskLevel.Safe => 2

/-! ## Claim theorems -/

/-- C1: For every financial snapshot with `currentCash ≥ 0`, if the monthly
burn is strictly negative then the runway calculation returns
`currentCash / |burn|`, which is finite (a rational value) and
non-negative. -/
theorem runway_of_negative_burn (s : FinancialSnapshot)
    (hcash : 0 ≤ s.currentCash) (hburn : calculateMonthlyBurn s < 0) :
    calculateRunway s.currentCash (calculateMonthlyBurn s)
      = s.currentCash / |calculateMonthlyBurn s| ∧
    0 ≤ calculateRunway s.currentCash (calculateMonthlyBurn s) := by
  have he : calculateRunway s.currentCash (calculateMonthlyBurn s)
      = s.currentCash / |calculateMonthlyBurn s| := by
    simp only [calculateRunway, if_pos hburn]
  exact ⟨he, he ▸ div_nonneg hcash (abs_nonneg _)⟩

/-- Witness for C1 at cash 100000, revenue 10000, expenses 20000. -/
theorem runway_of_negative_burn_witness :
    (0:ℚ) ≤ (FinancialSnapshot.mk 100000 10000 20000 "2024-01-01").currentCash ∧
    calculateMonthlyBurn (FinancialSnapshot.mk 100000 10000 20000 "2024-01-01") < 0 ∧
    (calculateRunway (FinancialSnapshot.mk 100000 10000 20000 "2024-01-01").currentCash
        (calculateMonthlyBurn (FinancialSnapshot.mk 100000 10000 20000 "2024-01-01"))
      = (FinancialSnapshot.mk 100000 10000 20000 "2024-01-01").currentCash
          / |calculateMonthlyBurn (FinancialSnapshot.mk 100000 10000 20000 "2024-01-01")| ∧
     0 ≤ calculateRunway (FinancialSnapshot.mk 100000 10000 20000 "2024-01-01").currentCash
        (calculateMonthlyBurn (FinancialSnapshot.mk 100000 10000 20000 "2024-01-01"))) :=
  ⟨by norm_num, by norm_num [calculateMonthlyBurn],
   runway_of_negative_burn _ (by norm_num) (by norm_num [calculateMonthlyBurn])⟩

/-- C2: For every input with monthly burn zero or positive, the runway
calculation returns the infinite-runway sentinel 999 months, and the
formatting consumer (`formatMonths` in Results.tsx) renders that sentinel
as infinite rather than as a number of months. -/
theorem runway_of_nonnegative_burn (cash burn : ℚ) (h : 0 ≤ burn) :
    calculateRunway cash burn = INFINITE_RUNWAY_SENTINEL ∧
    INFINITE_RUNWAY_SENTINEL = 999 ∧
    formatMonths (calculateRunway cash burn) = "∞ (Profitable)" := by
  have he : calculateRunway cash burn = INFINITE_RUNWAY_SENTINEL := by
    simp only [calculateRunway, if_neg (not_lt.mpr h)]
  refine ⟨he, rfl, ?_⟩
  rw [he]
  simp only [formatMonths, INFINITE_RUNWAY_SENTINEL]
  rw [if_pos (by norm_num : (999:ℚ) ≤ 999)]

/-- Witness for C2 at cash 50000 and burn 0. -/
theorem runway_of_nonnegative_burn_witness :
    (0:ℚ) ≤ 0 ∧
    (calculateRunway 50000 0 = INFINITE_RUNWAY_SENTINEL ∧
     INFINITE_RUNWAY_SENTINEL = 999 ∧
     formatMonths (calculateRunway 50000 0) = "∞ (Profitable)") :=
  ⟨le_refl 0, runway_of_nonnegative_burn 50000 0 (le_refl 0)⟩

/-- C3: For all non-negative `monthlyRevenue` and `monthlyExpenses`, the
burn-rate calculation returns exactly `monthlyRevenue - monthlyExpenses`,
both directly and through `computeHiringImpact`; it is a total function,
so no validation failure is possible. -/
theorem burn_rate_formula (s : FinancialSnapshot) (sc : HireScenario)
    (h1 : 0 ≤ s.monthlyRevenue) (h2 : 0 ≤ s.monthlyExpenses) :
    calculateMonthlyBurn s = s.monthlyRevenue - s.monthlyExpenses ∧
    (computeHiringImpact s sc).currentMonthlyBurn
      = s.monthlyRevenue - s.monthlyExpenses :=
  ⟨rfl, rfl⟩

/-- Witness for C3 at revenue 10000 and expenses 20000. -/
theorem burn_rate_formula_witness :
    (0:ℚ) ≤ (FinancialSnapshot.mk 100000 10000 20000 "2024-01-01").monthlyRevenue ∧
    (0:ℚ) ≤ (FinancialSnapshot.mk 100000 10000 20000 "2024-01-01").monthlyExpenses ∧
    (calculateMonthlyBurn (FinancialSnapshot.mk 100000 10000 20000 "2024-01-01")
      = (FinancialSnapshot.mk 100000 10000 20000 "2024-01-01").monthlyRevenue
        - (FinancialSnapshot.mk 100000 10000 20000 "2024-01-01").monthlyExpenses ∧
     (computeHiringImpact (FinancialSnapshot.mk 100000 10000 20000 "2024-01-01")
        (HireScenario.mk "Senior Engineer" 5000 500 500 "2024-02-01")).currentMonthlyBurn
      = (FinancialSnapshot.mk 100000 10000 20000 "2024-01-01").monthlyRevenue
        - (FinancialSnapshot.mk 100000 10000 20000 "2024-01-01").monthlyExpenses) :=
  ⟨by norm_num, by norm_num,
   burn_rate_formula (FinancialSnapshot.mk 100000 10000 20000 "2024-01-01")
     (HireScenario.mk "Senior Engineer" 5000 500 500 "2024-02-01")
     (by norm_num) (by norm_num)⟩

/-- C4: Every `HiringImpactResult` returned by `computeHiringImpact` on a
valid hire scenario (all money fields non-negative) satisfies:
`newMonthlyBurn = currentMonthlyBurn - hireTotalCost` with
`hireTotalCost ≥ 0`, `burnDelta = newMonthlyBurn - currentMonthlyBurn =
-hireTotalCost` (hence `burnDelta ≤ 0` and `newMonthlyBurn ≤
currentMonthlyBurn`), and `runwayDeltaMonths = newRunwayMonths -
currentRunwayMonths`. -/
theorem hiring_impact_invariants (s : FinancialSnapshot) (sc : HireScenario)
    (h1 : 0 ≤ sc.monthlySalary) (h2 : 0 ≤ sc.monthlyBenefits)
    (h3 : 0 ≤ sc.monthlyOverhead) :
    (computeHiringImpact s sc).newMonthlyBurn
      = (computeHiringImpact s sc).currentMonthlyBurn - sc.hireTotalCost ∧
    0 ≤ sc.hireTotalCost ∧
    (computeHiringImpact s sc).burnDelta
      = (computeHiringImpact s sc).newMonthlyBurn
        - (computeHiringImpact s sc).currentMonthlyBurn ∧
    (computeHiringImpact s sc).burnDelta = -sc.hireTotalCost ∧
    (computeHiringImpact s sc).burnDelta ≤ 0 ∧
    (computeHiringImpact s sc).newMonthlyBurn
      ≤ (computeHiringImpact s sc).currentMonthlyBurn ∧
    (computeHiringImpact s sc).runwayDeltaMonths
      = (computeHiringImpact s sc).newRunwayMonths
        - (computeHiringImpact s sc).currentRunwayMonths := by
  have htc : 0 ≤ sc.hireTotalCost := by
    unfold HireScenario.hireTotalCost
    linarith
  have hdelta : (computeHiringImpact s sc).burnDelta = -sc.hireTotalCost := by
    show (calculateMonthlyBurn s - sc.hireTotalCost) - calculateMonthlyBurn s
      = -sc.hireTotalCost
    ring
  refine ⟨rfl, htc, rfl, hdelta, ?_, ?_, rfl⟩
  · rw [hdelta]; linarith
  · show calculateMonthlyBurn s - sc.hireTotalCost ≤ calculateMonthlyBurn s
    linarith

/-- Witness for C4 at salary 5000, benefits 500, overhead 500. -/
theorem hiring_impact_invariants_witness :
    (0:ℚ) ≤ (HireScenario.mk "Senior Engineer" 5000 500 500 "2024-02-01").monthlySalary ∧
    (0:ℚ) ≤ (HireScenario.mk "Senior Engineer" 5000 500 500 "2024-02-01").monthlyBenefits ∧
    (0:ℚ) ≤ (HireScenario.mk "Senior Engineer" 5000 500 500 "2024-02-01").monthlyOverhead ∧
    (0:ℚ) ≤ (HireScenario.mk "Senior Engineer" 5000 500 500 "2024-02-01").hireTotalCost ∧
    (computeHiringImpact (FinancialSnapshot.mk 100000 10000 20000 "2024-01-01")
        (HireScenario.mk "Senior Engineer" 5000 500 500 "2024-02-01")).burnDelta
      = -(HireScenario.mk "Senior Engineer" 5000 500 500 "2024-02-01").hireTotalCost :=
  ⟨by norm_num, by norm_num, by norm_num,
   (hiring_impact_invariants (FinancialSnapshot.mk 100000 10000 20000 "2024-01-01")
     (HireScenario.mk "Senior Engineer" 5000 500 500 "2024-02-01")
     (by norm_num) (by norm_num) (by norm_num)).2.1,
   (hiring_impact_invariants (FinancialSnapshot.mk 100000 10000 20000 "2024-01-01")
     (HireScenario.mk "Senior Engineer" 5000 500 500 "2024-02-01")
     (by norm_num) (by norm_num) (by norm_num)).2.2.2.1⟩

/-- C5: The risk classification of `newRunwayMonths` is total and exhaustive
over the full rational range including the infinite-runway sentinel, the
sentinel always classifies as `Safe`, and the classification is monotonic:
a larger `newRunwayMonths` never yields a strictly riskier tier (in the
order Safe > Risky > Dangerous) than a smaller one. -/
theorem risk_classification_total_monotone :
    (∀ x : ℚ, classifyRisk x = RiskLevel.Safe ∨ classifyRisk x = RiskLevel.Risky ∨
      classifyRisk x = RiskLevel.Dangerous) ∧
    classifyRisk INFINITE_RUNWAY_SENTINEL = RiskLevel.Safe ∧
    (∀ x y : ℚ, x ≤ y → riskScore (classifyRisk x) ≤ riskScore (classifyRisk y)) := by
  refine ⟨?_, ?_, ?_⟩
  · intro x
    unfold classifyRisk
    split_ifs <;> simp
  · unfold classifyRisk INFINITE_RUNWAY_SENTINEL
    rw [if_pos (by norm_num : (12:ℚ) ≤ 999)]
  · intro x y hxy
    unfold classifyRisk
    split_ifs <;> first | decide | linarith

/-- Witness for C5 monotonicity at runways 5 and 13. -/
theorem risk_classification_total_monotone_witness :
    (5:ℚ) ≤ 13 ∧ riskScore (classifyRisk 5) ≤ riskScore (classifyRisk 13) :=
  ⟨by norm_num, risk_classification_total_monotone.2.2 5 13 (by norm_num)⟩

/-- C6: On cash 100000, revenue 10000, expenses 20000, with hire scenario
salary 5000, benefits 500, overhead 500, `computeHiringImpact` returns
`currentMonthlyBurn = -10000`, `currentRunwayMonths = 10`,
`newMonthlyBurn = -16000`, `newRunwayMonths = 6.25`, and
`runwayDeltaMonths = -3.75`. -/
theorem worked_example :
    (computeHiringImpact (FinancialSnapshot.mk 100000 10000 20000 "2024-01-01")
        (HireScenario.mk "Senior Engineer" 5000 500 500 "2024-02-01")).currentMonthlyBurn
      = -10000 ∧
    (computeHiringImpact (FinancialSnapshot.mk 100000 10000 20000 "2024-01-01")
        (HireScenario.mk "Senior Engineer" 5000 500 500 "2024-02-01")).currentRunwayMonths
      = 10 ∧
    (computeHiringImpact (FinancialSnapshot.mk 100000 10000 20000 "2024-01-01")
        (HireScenario.mk "Senior Engineer" 5000 500 500 "2024-02-01")).newMonthlyBurn
      = -16000 ∧
    (computeHiringImpact (FinancialSnapshot.mk 100000 10000 20000 "2024-01-01")
        (HireScenario.mk "Senior Engineer" 5000 500 500 "2024-02-01")).newRunwayMonths
      = 6.25 ∧
    (computeHiringImpact (FinancialSnapshot.mk 100000 10000 20000 "2024-01-01")
        (HireScenario.mk "Senior Engineer" 5000 500 500 "2024-02-01")).runwayDeltaMonths
      = -3.75 := by
  norm_num [computeHiringImpact, calculateRunway, calculateMonthlyBurn,
    HireScenario.hireTotalCost]

/-- C7: `computeHiringImpact` is total over its documented domain, and
division by zero in the runway calculation is unreachable: a zero-or-
positive burn is routed to the infinite-runway branch, and the division
branch is entered only when the divisor `|burn|` is nonzero. -/
theorem total_no_division_by_zero (s : FinancialSnapshot) (sc : HireScenario) :
    (0 ≤ calculateMonthlyBurn s →
      (computeHiringImpact s sc).currentRunwayMonths = INFINITE_RUNWAY_SENTINEL) ∧
    (calculateMonthlyBurn s < 0 →
      |calculateMonthlyBurn s| ≠ 0 ∧
      (computeHiringImpact s sc).currentRunwayMonths
        = s.currentCash / |calculateMonthlyBurn s|) ∧
    (0 ≤ (computeHiringImpact s sc).newMonthlyBurn →
      (computeHiringImpact s sc).newRunwayMonths = INFINITE_RUNWAY_SENTINEL) ∧
    ((computeHiringImpact s sc).newMonthlyBurn < 0 →
      |(computeHiringImpact s sc).newMonthlyBurn| ≠ 0 ∧
      (computeHiringImpact s sc).newRunwayMonths
        = s.currentCash / |(computeHiringImpact s sc).newMonthlyBurn|) := by
  refine ⟨?_, ?_, ?_, ?_⟩
  · intro h
    show calculateRunway s.currentCash (calculateMonthlyBurn s) = INFINITE_RUNWAY_SENTINEL
    simp only [calculateRunway, if_neg (not_lt.mpr h)]
  · intro h
    refine ⟨abs_ne_zero.mpr (ne_of_lt h), ?_⟩
    show calculateRunway s.currentCash (calculateMonthlyBurn s)
      = s.currentCash / |calculateMonthlyBurn s|
    simp only [calculateRunway, if_pos h]
  · intro h
    show calculateRunway s.currentCash (calculateMonthlyBurn s - sc.hireTotalCost)
      = INFINITE_RUNWAY_SENTINEL
    exact if_neg (not_lt.mpr h)
  · intro h
    refine ⟨abs_ne_zero.mpr (ne_of_lt h), ?_⟩
    show calculateRunway s.currentCash (calculateMonthlyBurn s - sc.hireTotalCost)
      = s.currentCash / |calculateMonthlyBurn s - sc.hireTotalCost|
    exact if_pos h

/-- Witness for C7: the profitable branch at revenue 30000 over expenses
20000, and the burning branch at revenue 10000 under expenses 20000. -/
theorem total_no_division_by_zero_witness :
    ((0:ℚ) ≤ calculateMonthlyBurn (FinancialSnapshot.mk 100000 30000 20000 "2024-01-01") ∧
     (computeHiringImpact (FinancialSnapshot.mk 100000 30000 20000 "2024-01-01")
        (HireScenario.mk "Senior Engineer" 5000 500 500 "2024-02-01")).currentRunwayMonths
      = INFINITE_RUNWAY_SENTINEL) ∧
    (calculateMonthlyBurn (FinancialSnapshot.mk 100000 10000 20000 "2024-01-01") < 0 ∧
     (|calculateMonthlyBurn (FinancialSnapshot.mk 100000 10000 20000 "2024-01-01")| ≠ 0 ∧
      (computeHiringImpact (FinancialSnapshot.mk 100000 10000 20000 "2024-01-01")
         (HireScenario.mk "Senior Engineer" 5000 500 500 "2024-02-01")).currentRunwayMonths
       = (FinancialSnapshot.mk 100000 10000 20000 "2024-01-01").currentCash
         / |calculateMonthlyBurn (FinancialSnapshot.mk 100000 10000 20000 "2024-01-01")|)) :=
  ⟨⟨by norm_num [calculateMonthlyBurn],
    (total_no_division_by_zero (FinancialSnapshot.mk 100000 30000 20000 "2024-01-01")
      (HireScenario.mk "Senior Engineer" 5000 500 500 "2024-02-01")).1
      (by norm_num [calculateMonthlyBurn])⟩,
   ⟨by norm_num [calculateMonthlyBurn],
    (total_no_division_by_zero (FinancialSnapshot.mk 100000 10000 20000 "2024-01-01")
      (HireScenario.mk "Senior Engineer" 5000 500 500 "2024-02-01")).2.1
      (by norm_num [calculateMonthlyBurn])⟩⟩

/-- C8: `computeHiringImpact` is deterministic — two invocations on
identical inputs yield identical result records, every field included —
and the snapshot and scenario (their timestamps included) are carried
through into the result unchanged. -/
theorem deterministic_carry_through (s : FinancialSnapshot) (sc : HireScenario)
    (r₁ r₂ : HiringImpactResult)
    (e₁ : computeHiringImpact s sc = r₁) (e₂ : computeHiringImpact s sc = r₂) :
    r₁ = r₂ ∧
    r₁.financialSnapshot = s ∧
    r₁.hireScenario = sc ∧
    r₁.financialSnapshot.snapshotDate = s.snapshotDate ∧
    r₁.hireScenario.startDate = sc.startDate := by
  subst e₁
  subst e₂
  exact ⟨rfl, rfl, rfl, rfl, rfl⟩

/-- Witness for C8 at the worked example's inputs. -/
theorem deterministic_carry_through_witness :
    computeHiringImpact (FinancialSnapshot.mk 100000 10000 20000 "2024-01-01")
        (HireScenario.mk "Senior Engineer" 5000 500 500 "2024-02-01")
      = computeHiringImpact (FinancialSnapshot.mk 100000 10000 20000 "2024-01-01")
        (HireScenario.mk "Senior Engineer" 5000 500 500 "2024-02-01") ∧
    (computeHiringImpact (FinancialSnapshot.mk 100000 10000 20000 "2024-01-01")
        (HireScenario.mk "Senior Engineer" 5000 500 500 "2024-02-01")).financialSnapshot
      = FinancialSnapshot.mk 100000 10000 20000 "2024-01-01" ∧
    (computeHiringImpact (FinancialSnapshot.mk 100000 10000 20000 "2024-01-01")
        (HireScenario.mk "Senior Engineer" 5000 500 500 "2024-02-01")).hireScenario
      = HireScenario.mk "Senior Engineer" 5000 500 500 "2024-02-01" ∧
    (computeHiringImpact (FinancialSnapshot.mk 100000 10000 20000 "2024-01-01")
        (HireScenario.mk "Senior Engineer" 5000 500 500 "2024-02-01")).financialSnapshot.snapshotDate
      = (FinancialSnapshot.mk 100000 10000 20000 "2024-01-01").snapshotDate ∧
    (computeHiringImpact (FinancialSnapshot.mk 100000 10000 20000 "2024-01-01")
        (HireScenario.mk "Senior Engineer" 5000 500 500 "2024-02-01")).hireScenario.startDate
      = (HireScenario.mk "Senior Engineer" 5000 500 500 "2024-02-01").startDate :=
  deterministic_carry_through (FinancialSnapshot.mk 100000 10000 20000 "2024-01-01")
    (HireScenario.mk "Senior Engineer" 5000 500 500 "2024-02-01") _ _ rfl rfl

/-- C9: the frontend month formatter renders `∞ (Profitable)` for every
input greater than or equal to 999 — not only the exact sentinel, so a
genuinely finite runway of 999 months or more also displays as infinite —
and every input below 999 renders as the value rounded to one decimal
(JavaScript `toFixed(1)`) followed by ` months`. -/
theorem formatMonths_threshold (m : ℚ) :
    (999 ≤ m → formatMonths m = "∞ (Profitable)") ∧
    (m < 999 → formatMonths m = jsToFixed1 m ++ " months") := by
  constructor
  · intro h
    simp only [formatMonths, if_pos h]
  · intro h
    simp only [formatMonths, if_neg (not_le.mpr h)]

/-- Witness for C9: the genuinely finite runway 1000 displays as infinite,
and the runway 5 displays as `5.0 months`. -/
theorem formatMonths_threshold_witness :
    (999:ℚ) ≤ 1000 ∧ formatMonths 1000 = "∞ (Profitable)" ∧
    (5:ℚ) < 999 ∧ formatMonths 5 = "5.0 months" := by
  refine ⟨by norm_num, (formatMonths_threshold 1000).1 (by norm_num), by norm_num, ?_⟩
  rw [(formatMonths_threshold 5).2 (by norm_num)]
  have h : (⌊|(5:ℚ)| * 10 + 1/2⌋ : ℤ) = 50 := by norm_num
  simp only [jsToFixed1]
  rw [if_neg (by norm_num : ¬ (5:ℚ) < 0), h]
  decide

/-- C10: the Financial Impact section renders the current and new monthly
burn through `Math.abs`, so for every burn value `b` the rendered currency
string for `b` equals the one for `-b`: the sign of the burn is not
observable there. -/
theorem burn_display_sign_invariant :
    (∀ b : ℚ, renderedBurnCurrency b = renderedBurnCurrency (-b)) ∧
    (∀ impact : HiringImpactResult,
      currentBurnDisplay impact = renderedBurnCurrency impact.currentMonthlyBurn ∧
      newBurnDisplay impact = renderedBurnCurrency impact.newMonthlyBurn ∧
      burnDeltaDisplay impact = "+" ++ renderedBurnCurrency impact.burnDelta) := by
  constructor
  · intro b
    simp only [renderedBurnCurrency, abs_neg]
  · intro impact
    exact ⟨rfl, rfl, rfl⟩

end Axm
